import Mathlib

/-!
# Verification of the ICPS-BSVA survey-analysis pipeline

Shallow embedding of the data model and operations of the
`icps-bsva-survey-analysis` repository: the scale-encoding tables and regional
groupings documented in the project guide, the `rebuild.sh` pipeline script,
and the webapp helpers in `webapp/src/lib/data.ts` / `types.ts`.  The Python
analysis scripts (`01_data_cleaning.py`, `02_exploratory_analysis.py`,
`03_segment_analysis.py` and their utilities) are not present in the
repository snapshot; operations that live only there are modelled from the
specification and are marked as such in their doc comments.

Note on string literals: `\x27` denotes the ASCII apostrophe, so
`"Don\x27t know"` is the source label `Don't know`.
-/

namespace SurveyAnalysis

/-! ## Scale-encoding tables

Embedded from the `Data Processing Guidelines` section of the project guide
(`CLAUDE.md`): `LIKERT_5_POINT`, `LIKERT_IMPACT` and `FREQUENCY_SCALE` are
fixed label-to-number tables; a table value of `none` is Python's `None`
(the recognized `Don't know` label). -/

def LIKERT_5_POINT : List (String × Option Int) :=
  [("Very unconfident", some 1),
   ("Unconfident", some 2),
   ("Neutral", some 3),
   ("Confident", some 4),
   ("Very Confident", some 5)]

def LIKERT_IMPACT : List (String × Option Int) :=
  [("No impact (0)", some 0),
   ("Slight impact (1)", some 1),
   ("Moderate impact (2)", some 2),
   ("Significant impact (3)", some 3),
   ("Don\x27t know", none)]

def FREQUENCY_SCALE : List (String × Option Int) :=
  [("Never", some 0),
   ("Rarely (1-5 times per election)", some 1),
   ("Sometimes (6-20 times per election)", some 2),
   ("Often (21-50 times per election)", some 3),
   ("Very often (more than 50 times per election)", some 4)]

/-- Result of consolidating one raw scale cell: an unanswered (empty) cell is
distinct from a recognized `Don't know` label (a null value), which is in turn
distinct from every integer code; unrecognized non-empty text is surfaced as a
data-quality error, never coerced to null. -/
inductive ScaleValue where
  | notAnswered : ScaleValue
  | nullValue : ScaleValue
  | code : Int → ScaleValue
  | dataQualityError : String → ScaleValue
deriving DecidableEq, Repr

/-- Modelled from the spec: the Likert/frequency cell consolidation performed
by the missing `01_data_cleaning.py` / `likert_converter.py` — "value =
integer code looked up from the fixed label→number table (Likert 1–5;
frequency 0–4); a recognized `Don't know` label maps to null, distinct from
`not answered`. Unrecognized non-empty text is a data-quality error, not
silently coerced to null."  The tables themselves are embedded verbatim from
the repository's `CLAUDE.md`. -/
def consolidateScale (table : List (String × Option Int)) (cell : String) :
    ScaleValue :=
  if cell = "" then ScaleValue.notAnswered
  else
    match table.lookup cell with
    | some (some n) => ScaleValue.code n
    | some none => ScaleValue.nullValue
    | none => ScaleValue.dataQualityError cell

/-! ## Regional groupings

Embedded from the `Regional Groupings` section of the project guide
(`REGIONS`), together with the webapp's `getRegionColor`
(`webapp/src/lib/data.ts`). -/

inductive Region where
  | Africa : Region
  | AsiaPacific : Region
  | Europe : Region
  | Americas : Region
  | Other : Region
deriving DecidableEq, Repr

def REGIONS : List (Region × List String) :=
  [(Region.Africa,
    ["Kenya", "Uganda", "Tanzania", "Somaliland", "Lesotho",
     "Sierra Leone", "Botswana", "Nigeria", "Mauritania", "Zanzibar"]),
   (Region.AsiaPacific,
    ["Pakistan", "Maldives", "Taiwan", "Vanuatu", "Bangladesh", "Bhutan"]),
   (Region.Europe,
    ["Albania", "Serbia", "Lithuania", "Armenia"]),
   (Region.Americas,
    ["United States", "Suriname", "Antigua & Barbuda"])]

/-- Modelled from the spec: the region-assignment lookup performed by the
missing `01_data_cleaning.py` — "a static mapping from country name to one of
{Africa, Asia-Pacific, Europe, Americas, Other} ... unrecognized countries map
to `Other` and must not silently drop the response", using the repository's
`REGIONS` table. -/
def regionOf (country : String) : Region :=
  match REGIONS.find? (fun p => p.2.contains country) with
  | some p => p.1
  | none => Region.Other

def allRegions : List Region :=
  [Region.Africa, Region.AsiaPacific, Region.Europe, Region.Americas,
   Region.Other]

/-- Modelled from the spec: the partition of the Clean Dataset used for
regional aggregation — the responses (here represented by their `country`
field) whose assigned region is `r`. -/
def regionPartition (countries : List String) (r : Region) : List String :=
  countries.filter (fun c => regionOf c = r)

/-- `getRegionColor` from `webapp/src/lib/data.ts`: chart color per region,
falling back to the `Other` color for any unrecognized region string. -/
def getRegionColor (region : String) : String :=
  let colors : List (String × String) :=
    [("Africa", "hsl(var(--chart-1))"),
     ("Asia-Pacific", "hsl(var(--chart-2))"),
     ("Europe", "hsl(var(--chart-3))"),
     ("Americas", "hsl(var(--chart-4))"),
     ("Other", "hsl(var(--chart-5))")]
  match colors.lookup region with
  | some c => c
  | none => "hsl(var(--chart-5))"

/-! ## Completion score and the completion filter -/

/-- Modelled from the spec: the `completion_score` computed by the missing
`01_data_cleaning.py` — "(count of non-null substantive fields) / (count of
substantive Question Groups)", a value in 0–1.  A consolidated response's
substantive fields are represented as a list of optional values over a fixed
set of Question Groups.  (In Lean, division by a zero denominator yields 0.) -/
def completionScore {α : Type} (fields : List (Option α)) : ℚ :=
  (fields.countP Option.isSome : ℚ) / (fields.length : ℚ)

/-- Modelled from the spec: the Response Filter of the missing
`01_data_cleaning.py` — "retain only rows with `completion_score ≥ threshold`";
a response below the threshold is excluded from the Clean Dataset entirely. -/
def filterByCompletion {α : Type} (threshold : ℚ)
    (rows : List (List (Option α))) : List (List (Option α)) :=
  rows.filter (fun fields => threshold ≤ completionScore fields)

/-! ## Aggregate means -/

/-- Modelled from the spec: the per-metric mean of a Segment Aggregate /
Question Group statistic computed by the missing `02_exploratory_analysis.py`
and `03_segment_analysis.py` — "per-metric means computed only over non-null
values (mean of an all-null column is represented as `unavailable`, never
zero)". -/
def meanNonNull (values : List (Option ℚ)) : Option ℚ :=
  let xs := values.filterMap id
  if xs.isEmpty then none else some (xs.sum / (xs.length : ℚ))

/-- One-decimal rendering of a rational, standing for JavaScript's
`score.toFixed(1)` in the non-null branch of `formatScore`. -/
def toFixedOne (q : ℚ) : String :=
  let scaled : Int := round (q * 10)
  let sign := if scaled < 0 then "-" else ""
  sign ++ toString (scaled.natAbs / 10) ++ "." ++ toString (scaled.natAbs % 10)

/-- `formatScore` from `webapp/src/lib/data.ts`: a null score renders as the
distinguished string `N/A`; a numeric score renders with one decimal. -/
def formatScore (score : Option ℚ) : String :=
  match score with
  | none => "N/A"
  | some s => toFixedOne s

/-! ## Multi-select consolidation -/

/-- Modelled from the spec: the `multi_select` consolidation of the missing
`01_data_cleaning.py` / `multiselect_handler.py` — "value = ordered list of
option labels whose corresponding column is non-empty for that row; empty
list (not null) if none selected".  `options` are the group's row-1 option
labels in column order and `cells` the row's raw cells for those columns. -/
def consolidateMultiSelect (options : List String) (cells : List String) :
    List String :=
  ((options.zip cells).filter (fun p => p.2 ≠ "")).map Prod.fst

/-- A synthetic raw row for a multi-select group: the SurveyMonkey export puts
the option text in a selected option's column and leaves it empty otherwise. -/
def syntheticCells (options : List String) (selected : List Bool) :
    List String :=
  List.zipWith (fun o b => if b then o else "") options selected

/-! ## Pilot candidates -/

/-- `PilotCandidate` from `webapp/src/lib/types.ts` (the `scale` sub-object is
inlined as its two fields). -/
structure PilotCandidate where
  country : String
  region : String
  composite_score : ℚ
  need_score : ℚ
  capability_score : ℚ
  willingness_score : ℚ
  suitability : String
  need_components : List String
  capability_components : List String
  willingness_components : List String
  temp_workers_count : Option String
  elections_annually : Option String
deriving DecidableEq, Repr

/-- Modelled from the spec: the `composite_score` formula of the missing
`03_segment_analysis.py` — "a fixed deterministic formula combining the three
(documented, not hidden) — e.g. a weighted sum normalized to a bounded range —
must be reproducible from the three component scores alone".  Concretely: need
and capability (each 0–10) weighted 0.4 and willingness (0–5, i.e. doubled to
a 0–10 scale then weighted 0.2), giving a composite in 0–10. -/
def compositeScore (need capability willingness : ℚ) : ℚ :=
  (2 / 5) * need + (2 / 5) * capability + (2 / 5) * willingness

/-- The composite score of a pilot-candidate evaluation, as a function of the
whole record: it reads nothing but the three component scores. -/
def evalComposite (c : PilotCandidate) : ℚ :=
  compositeScore c.need_score c.capability_score c.willingness_score

/-- The presentation order of pilot candidates: `a` comes no later than `b`
when `a`'s composite score is greater, or the composite scores are equal and
`a`'s need score is at least `b`'s. -/
def candBefore (a b : PilotCandidate) : Prop :=
  b.composite_score < a.composite_score ∨
    (b.composite_score = a.composite_score ∧ b.need_score ≤ a.need_score)

instance : DecidableRel candBefore := fun a b => by
  unfold candBefore; infer_instance

instance : IsTotal PilotCandidate candBefore where
  total a b := by
    rcases lt_trichotomy a.composite_score b.composite_score with h | h | h
    · exact Or.inr (Or.inl h)
    · rcases le_total a.need_score b.need_score with hn | hn
      · exact Or.inr (Or.inr ⟨h, hn⟩)
      · exact Or.inl (Or.inr ⟨h.symm, hn⟩)
    · exact Or.inl (Or.inl h)

instance : IsTrans PilotCandidate candBefore where
  trans a b c hab hbc := by
    rcases hab with hab | ⟨hab, hab'⟩ <;> rcases hbc with hbc | ⟨hbc, hbc'⟩
    · exact Or.inl (hbc.trans hab)
    · exact Or.inl (hbc ▸ hab)
    · exact Or.inl (hab ▸ hbc)
    · exact Or.inr ⟨hbc.trans hab, hbc'.trans hab'⟩

/-- Modelled from the spec: the ordering applied to `all_candidates` by the
missing `03_segment_analysis.py` — "candidates are sorted by `composite_score`
descending for presentation; ties broken by `need_score` descending" — which
the webapp's pilot-candidates page renders in list order. -/
def sortCandidates (l : List PilotCandidate) : List PilotCandidate :=
  l.insertionSort candBefore

/-! ## The rebuild pipeline (`rebuild.sh`)

`rebuild.sh` runs under `set -e`: commands execute in order and the script
aborts at the first failing command.  Its commands are the three analysis
stages followed by the copy step, which copies the seven JSON outputs to
`webapp/src/data/`. -/

inductive Cmd where
  | stage : String → Cmd
  | copyFile : String → Cmd
deriving DecidableEq, Repr

def stage1 : Cmd := Cmd.stage "analysis/01_data_cleaning.py"
def stage2 : Cmd := Cmd.stage "analysis/02_exploratory_analysis.py"
def stage3 : Cmd := Cmd.stage "analysis/03_segment_analysis.py"

def webappDataFiles : List String :=
  ["survey_clean.json", "summary_stats.json", "completion_analysis.json",
   "regional_comparison.json", "pilot_candidates.json",
   "pain_point_rankings.json", "infrastructure_segments.json"]

/-- The command sequence of `rebuild.sh` (steps 1–4; the optional `--build`
step only builds the webapp and produces no data files). -/
def rebuildScript : List Cmd :=
  [stage1, stage2, stage3] ++ webappDataFiles.map Cmd.copyFile

/-- `set -e` execution: given which commands succeed, the list of commands
that actually run — every command up to and including the first failure. -/
def runSetE (ok : Cmd → Bool) : List Cmd → List Cmd
  | [] => []
  | c :: rest => if ok c then c :: runSetE ok rest else [c]

/-- The downstream output files a run of `rebuild.sh` produces in
`webapp/src/data/`: the files of the copy commands that ran and succeeded. -/
def producedFiles (ok : Cmd → Bool) : List String :=
  (runSetE ok rebuildScript).filterMap fun c =>
    match c with
    | Cmd.copyFile f => if ok c then some f else none
    | Cmd.stage _ => none

/-! ## Top-item helpers (`webapp/src/lib/data.ts`) -/

/-- The comparator `([, a], [, b]) => b - a` used by the webapp's sorts,
as an ordering relation: `a` sorts no later than `b` when `a`'s count is at
least `b`'s. -/
def countGE (a b : String × Int) : Prop := b.2 ≤ a.2

instance : DecidableRel countGE := fun a b =>
  inferInstanceAs (Decidable (b.2 ≤ a.2))

instance : IsTotal (String × Int) countGE where
  total a b := le_total b.2 a.2

instance : IsTrans (String × Int) countGE where
  trans _ _ _ hab hbc := le_trans hbc hab

/-- JavaScript's `entries.sort(([, a], [, b]) => b - a)`: the entry list in
descending order of count. -/
def sortByCountDesc (entries : List (String × Int)) : List (String × Int) :=
  entries.insertionSort countGE

/-- `getTopItem` from `webapp/src/lib/data.ts`: drop the excluded keys, return
`null` when nothing remains, otherwise the first entry of the list sorted by
count descending.  An object's `Object.entries` is modelled as an association
list in insertion order. -/
def getTopItem (counts : List (String × Int)) (excludeKeys : List String) :
    Option (String × Int) :=
  let filtered := counts.filter (fun e => !(excludeKeys.contains e.1))
  if filtered.isEmpty then none
  else (sortByCountDesc filtered).head?

/-- `getTopDistribution` from `webapp/src/lib/data.ts`: like `getTopItem` but
with no exclusions. -/
def getTopDistribution (distribution : List (String × Int)) :
    Option (String × Int) :=
  if distribution.isEmpty then none
  else (sortByCountDesc distribution).head?

/-! ## Summary statistics and qualitative synthesis (`webapp/src/lib/types.ts`)

TypeScript `Record<string, number>` objects are modelled as association lists
in insertion order. -/

structure DateRange where
  earliest : String
  latest : String
deriving DecidableEq, Repr

structure CompletionStats where
  mean : ℚ
  median : ℚ
  min : ℚ
  max : ℚ
deriving DecidableEq, Repr

structure CountriesOverview where
  unique_count : Int
  list : List String
deriving DecidableEq, Repr

structure ResponseOverview where
  total_raw_responses : Int
  total_responses : Int
  date_range : DateRange
  completion : CompletionStats
  countries : CountriesOverview
  regions : List (String × Int)
  followup_willing : List (String × Int)
deriving DecidableEq, Repr

/-- A question-group statistic `{n, mean, distribution}`. -/
structure ScaleStat where
  n : Int
  mean : ℚ
  distribution : List (String × Int)
deriving DecidableEq, Repr

/-- A question-group statistic `{n, missing, mean, distribution}`. -/
structure ScaleStatWithMissing where
  n : Int
  missing : Int
  mean : ℚ
  distribution : List (String × Int)
deriving DecidableEq, Repr

structure OptionCountsStat where
  option_counts : List (String × Int)
deriving DecidableEq, Repr

structure CredentialVerificationStats where
  fraud_incidents : ScaleStatWithMissing
  verification_hours : ScaleStat
  challenges : OptionCountsStat
deriving DecidableEq, Repr

structure TemporaryWorkforceStats where
  workforce_percentage : ScaleStatWithMissing
  challenges : OptionCountsStat
deriving DecidableEq, Repr

structure TechnologyInfrastructureStats where
  levels : List (String × ScaleStat)
  limitations : OptionCountsStat
deriving DecidableEq, Repr

structure WorkforceRetentionStats where
  return_rate : ScaleStat
  technologies_explored : OptionCountsStat
deriving DecidableEq, Repr

structure SummaryStats where
  response_overview : ResponseOverview
  credential_verification : CredentialVerificationStats
  temporary_workforce : TemporaryWorkforceStats
  technology_infrastructure : TechnologyInfrastructureStats
  workforce_retention : WorkforceRetentionStats
deriving DecidableEq, Repr

structure CompellingQuote where
  country : String
  category : String
  quote : String
deriving DecidableEq, Repr

structure QualitativeSynthesis where
  priority_themes : List (String × Int)
  concern_themes : List (String × Int)
  change_themes : List (String × Int)
  compelling_quotes : List CompellingQuote
  total_responses_analyzed : Int
deriving DecidableEq, Repr

/-! ## Key findings (`getKeyFindings` in `webapp/src/lib/data.ts`) -/

structure CredentialVerificationFinding where
  avgVerificationTime : String
  avgVerificationTimeCount : Int
  topChallenge : String
  topChallengeCount : Int
deriving DecidableEq, Repr

structure WorkforceRetentionFinding where
  returnRate : String
  returnRateCount : Int
  topChallenge : String
  topChallengeCount : Int
deriving DecidableEq, Repr

structure TechnologyAdoptionFinding where
  mostExplored : String
  mostExploredCount : Int
  topBarrier : String
  topBarrierCount : Int
deriving DecidableEq, Repr

structure TopPriorityFinding where
  theme : String
  themeFormatted : String
  count : Int
deriving DecidableEq, Repr

structure KeyFindings where
  credentialVerification : CredentialVerificationFinding
  workforceRetention : WorkforceRetentionFinding
  technologyAdoption : TechnologyAdoptionFinding
  topPriority : TopPriorityFinding
deriving DecidableEq, Repr

/-- JavaScript's `x?.field || default` on an optional string: `undefined` and
the empty string are falsy and fall back to the default. -/
def jsOrString (o : Option String) (default : String) : String :=
  match o with
  | none => default
  | some s => if s = "" then default else s

/-- JavaScript's `x?.count || 0` on an optional count. -/
def jsCountOrZero (o : Option Int) : Int :=
  match o with
  | none => 0
  | some c => c

/-- The `themeNames` table inside `getKeyFindings`. -/
def themeNames : List (String × String) :=
  [("technology_digitalization", "Technology & Digitalization"),
   ("training_capacity", "Training & Capacity Building"),
   ("voter_registration", "Voter Registration"),
   ("funding_resources", "Funding & Resources"),
   ("transparency_trust", "Transparency & Trust"),
   ("security_integrity", "Security & Integrity"),
   ("accessibility_inclusion", "Accessibility & Inclusion"),
   ("staff_recruitment", "Staff Recruitment")]

/-- A JavaScript word character (`\w`): alphanumeric or underscore. -/
def isWordChar (c : Char) : Bool :=
  c.isAlphanum || c = '_'

/-- `replace(/\b\w/g, l => l.toUpperCase())`: uppercase every word character
that starts a word. -/
def upperFirstOfWordsAux : Bool → List Char → List Char
  | _, [] => []
  | prevWord, c :: cs =>
    let c' := if isWordChar c && !prevWord then c.toUpper else c
    c' :: upperFirstOfWordsAux (isWordChar c) cs

def upperFirstOfWords (s : String) : String :=
  String.mk (upperFirstOfWordsAux false s.data)

/-- `formatThemeName` inside `getKeyFindings`: a known theme key renders via
`themeNames`; otherwise underscores become spaces (`replace(/_/g, ' ')`,
modelled character-wise) and words are title-cased. -/
def formatThemeName (key : String) : String :=
  match themeNames.lookup key with
  | some v => v
  | none =>
    upperFirstOfWords
      (String.mk (key.data.map (fun c => if c = '_' then ' ' else c)))

/-- The `shortNames` table inside `getKeyFindings`. -/
def shortNames : List (String × String) :=
  [("Difficulty verifying in remote/offline locations", "Remote verification"),
   ("Time delays in verification", "Time delays"),
   ("Lack of centralised verification system", "No central system"),
   ("Losing trained workers to other opportunities between elections",
    "Losing trained workers"),
   ("No system to track worker performance across elections",
    "No performance tracking"),
   ("No year-round engagement with temporary workers",
    "No year-round engagement"),
   ("Biometric systems/Digital identity solutions", "Biometrics"),
   ("Electronic voting systems", "E-voting systems"),
   ("Budget constraints", "Budget constraints"),
   ("Limited internet connectivity", "Limited connectivity"),
   ("Insufficient IT support", "Insufficient IT support")]

/-- `shortenChallenge` inside `getKeyFindings`. -/
def shortenChallenge (challenge : String) : String :=
  match shortNames.lookup challenge with
  | some v => v
  | none => challenge

/-- `getKeyFindings` from `webapp/src/lib/data.ts`, as a function of the two
imported data values it reads (`getSummaryStats()` and
`getQualitativeSynthesis()`). -/
def getKeyFindings (stats : SummaryStats) (qualitative : QualitativeSynthesis) :
    KeyFindings :=
  let verificationTimeTop :=
    getTopDistribution stats.credential_verification.verification_hours.distribution
  let credentialChallengeTop :=
    getTopItem stats.credential_verification.challenges.option_counts
      ["Less than 25%", "Other", "No significant challenges"]
  let returnRateTop :=
    getTopDistribution stats.workforce_retention.return_rate.distribution
  let workforceChallengeTop :=
    getTopItem stats.temporary_workforce.challenges.option_counts
      ["Never", "Rarely (1-5 times per election)", "Other"]
  let techExploredTop :=
    getTopItem stats.workforce_retention.technologies_explored.option_counts
      ["Other"]
  let infraLimitationTop :=
    getTopItem stats.technology_infrastructure.limitations.option_counts
      ["Open-Ended Response", "0-25%", "Other"]
  let topPriorityEntry := (sortByCountDesc qualitative.priority_themes).head?
  { credentialVerification :=
      { avgVerificationTime := jsOrString (verificationTimeTop.map Prod.fst) "N/A"
        avgVerificationTimeCount := jsCountOrZero (verificationTimeTop.map Prod.snd)
        topChallenge :=
          shortenChallenge (jsOrString (credentialChallengeTop.map Prod.fst) "N/A")
        topChallengeCount := jsCountOrZero (credentialChallengeTop.map Prod.snd) }
    workforceRetention :=
      { returnRate := jsOrString (returnRateTop.map Prod.fst) "N/A"
        returnRateCount := jsCountOrZero (returnRateTop.map Prod.snd)
        topChallenge :=
          shortenChallenge (jsOrString (workforceChallengeTop.map Prod.fst) "N/A")
        topChallengeCount := jsCountOrZero (workforceChallengeTop.map Prod.snd) }
    technologyAdoption :=
      { mostExplored :=
          shortenChallenge (jsOrString (techExploredTop.map Prod.fst) "N/A")
        mostExploredCount := jsCountOrZero (techExploredTop.map Prod.snd)
        topBarrier :=
          shortenChallenge (jsOrString (infraLimitationTop.map Prod.fst) "N/A")
        topBarrierCount := jsCountOrZero (infraLimitationTop.map Prod.snd) }
    topPriority :=
      { theme := jsOrString (topPriorityEntry.map Prod.fst) ""
        themeFormatted := formatThemeName (jsOrString (topPriorityEntry.map Prod.fst) "")
        count := jsCountOrZero (topPriorityEntry.map Prod.snd) } }

/-- The `ScaleValue` a table entry stands for: an integer entry is its code, a
`None` entry (the recognized `Don't know` label) is the null value. -/
def tableValue (v : Option Int) : ScaleValue :=
  match v with
  | some n => ScaleValue.code n
  | none => ScaleValue.nullValue

/-- A concrete pilot-candidate evaluation used by the C5 witness. -/
def candRunOne : PilotCandidate :=
  { country := "Kenya", region := "Africa", composite_score := 76 / 10
    need_score := 8, capability_score := 7, willingness_score := 4
    suitability := "HIGH", need_components := ["credential fraud"]
    capability_components := ["connectivity"], willingness_components := ["follow-up"]
    temp_workers_count := some "5000", elections_annually := some "1-2" }

/-- A second run over the same three component scores, differing in every
other field. -/
def candRunTwo : PilotCandidate :=
  { country := "Albania", region := "Europe", composite_score := 76 / 10
    need_score := 8, capability_score := 7, willingness_score := 4
    suitability := "MEDIUM", need_components := []
    capability_components := [], willingness_components := []
    temp_workers_count := none, elections_annually := none }

/-- A summary-stats value whose distributions and option-count maps are all
empty, used to exercise the defaulting branches of `getKeyFindings`. -/
def emptyStats : SummaryStats :=
  { response_overview :=
      { total_raw_responses := 0, total_responses := 0
        date_range := { earliest := "", latest := "" }
        completion := { mean := 0, median := 0, min := 0, max := 0 }
        countries := { unique_count := 0, list := [] }
        regions := [], followup_willing := [] }
    credential_verification :=
      { fraud_incidents := { n := 0, missing := 0, mean := 0, distribution := [] }
        verification_hours := { n := 0, mean := 0, distribution := [] }
        challenges := { option_counts := [] } }
    temporary_workforce :=
      { workforce_percentage := { n := 0, missing := 0, mean := 0, distribution := [] }
        challenges := { option_counts := [] } }
    technology_infrastructure :=
      { levels := [], limitations := { option_counts := [] } }
    workforce_retention :=
      { return_rate := { n := 0, mean := 0, distribution := [] }
        technologies_explored := { option_counts := [] } } }

/-- A qualitative synthesis with no themes, used by the C10 witness. -/
def emptyQualitative : QualitativeSynthesis :=
  { priority_themes := [], concern_themes := [], change_themes := []
    compelling_quotes := [], total_responses_analyzed := 0 }

/-! ## Theorems -/

/-- Cons unfolding of the multi-select consolidation: a non-empty head cell
keeps its option label, an empty one drops it. -/
theorem consolidateMultiSelect_cons (o : String) (os : List String)
    (c : String) (cs : List String) :
    consolidateMultiSelect (o :: os) (c :: cs) =
      if c = "" then consolidateMultiSelect os cs
      else o :: consolidateMultiSelect os cs := by
  by_cases h : c = "" <;> simp [consolidateMultiSelect, List.filter_cons, h]

/-- C1: For every recognized scale label, consolidation returns the fixed
integer code of the documented label-to-number tables — the 5-point Likert
labels map to 1–5 (`Very unconfident` to 1, `Neutral` to 3, `Very Confident`
to 5), the frequency labels map to 0–4 (`Never` to 0, `Very often (more than
50 times per election)` to 4) — and the recognized `Don't know` label maps to
the null value, which is distinct from the code 0 and from an unanswered
cell. -/
theorem consolidateScale_tables_correct :
    (∀ table ∈ [LIKERT_5_POINT, LIKERT_IMPACT, FREQUENCY_SCALE],
      ∀ p ∈ table, consolidateScale table p.1 = tableValue p.2) ∧
    consolidateScale LIKERT_5_POINT "Very unconfident" = ScaleValue.code 1 ∧
    consolidateScale LIKERT_5_POINT "Neutral" = ScaleValue.code 3 ∧
    consolidateScale LIKERT_5_POINT "Very Confident" = ScaleValue.code 5 ∧
    consolidateScale FREQUENCY_SCALE "Never" = ScaleValue.code 0 ∧
    consolidateScale FREQUENCY_SCALE
      "Very often (more than 50 times per election)" = ScaleValue.code 4 ∧
    consolidateScale LIKERT_IMPACT "Don\x27t know" = ScaleValue.nullValue ∧
    (∀ n : Int, ScaleValue.nullValue ≠ ScaleValue.code n) ∧
    ScaleValue.nullValue ≠ ScaleValue.notAnswered := by
  refine ⟨by decide, by decide, by decide, by decide, by decide, by decide,
    by decide, ?_, by decide⟩
  intro n h
  cases h

/-- Witness for C1: the `Neutral` entry of `LIKERT_5_POINT`, consolidated
through the general table statement. -/
theorem consolidateScale_tables_correct_witness :
    consolidateScale LIKERT_5_POINT "Neutral" = ScaleValue.code 3 :=
  consolidateScale_tables_correct.1 LIKERT_5_POINT (by decide)
    ("Neutral", some 3) (by decide)

/-- C2: Region assignment maps every country to exactly one of the five
regions: each country of the known `REGIONS` list resolves to its unique
listed region, every unknown country resolves to `Other`, the result is
always one of the five enumerated values, and no response is dropped from
regional aggregation — the five regional partitions of any country list have
total size equal to the list's length. -/
theorem regionOf_complete :
    (∀ p ∈ REGIONS, ∀ c ∈ p.2, regionOf c = p.1) ∧
    (∀ c : String, regionOf c ∈ allRegions) ∧
    (∀ c : String, (∀ p ∈ REGIONS, c ∉ p.2) → regionOf c = Region.Other) ∧
    (∀ countries : List String,
      (allRegions.map fun r => (regionPartition countries r).length).sum
        = countries.length) := by
  refine ⟨by decide, ?_, ?_, ?_⟩
  · intro c
    cases h : regionOf c <;> simp [allRegions]
  · intro c h
    unfold regionOf
    cases hf : REGIONS.find? (fun p => p.2.contains c) with
    | none => rfl
    | some p =>
      exfalso
      have hp := List.find?_some hf
      have hmem : p ∈ REGIONS := List.mem_of_find?_eq_some hf
      simp only [List.contains, decide_eq_true_eq] at hp
      exact h p hmem (List.mem_of_elem_eq_true hp)
  · intro countries
    induction countries with
    | nil => simp [regionPartition]
    | cons c cs ih =>
      have hsplit : ∀ r : Region, (regionPartition (c :: cs) r).length =
          (if regionOf c = r then 1 else 0) + (regionPartition cs r).length := by
        intro r
        by_cases h : regionOf c = r
        · simp [regionPartition, List.filter_cons, h]
          omega
        · simp [regionPartition, List.filter_cons, h]
      simp only [allRegions, List.map_cons, List.map_nil, List.sum_cons,
        List.sum_nil, hsplit] at ih ⊢
      cases h : regionOf c <;> simp [h] <;> omega

/-- Witness for C2: `Kenya` resolves to Africa through the general statement,
and a two-country list fully covers the regional partitions. -/
theorem regionOf_complete_witness :
    regionOf "Kenya" = Region.Africa ∧
    (allRegions.map fun r =>
      (regionPartition ["Kenya", "Atlantis"] r).length).sum = 2 :=
  ⟨regionOf_complete.1 (Region.Africa,
      ["Kenya", "Uganda", "Tanzania", "Somaliland", "Lesotho",
       "Sierra Leone", "Botswana", "Nigeria", "Mauritania", "Zanzibar"])
      (by decide) "Kenya" (by decide),
   regionOf_complete.2.2.2 ["Kenya", "Atlantis"]⟩

/-- C3: The completion score is monotonic — over the same set of substantive
Question Groups (equal field count), a response with strictly more non-null
substantive fields has a `completion_score` at least as large — and every
response whose score is below the threshold is excluded from the Clean
Dataset entirely by the completion filter. -/
theorem completionScore_monotone_filter_excludes :
    (∀ (α : Type) (f g : List (Option α)), f.length = g.length →
      g.countP Option.isSome < f.countP Option.isSome →
      completionScore g ≤ completionScore f) ∧
    (∀ (α : Type) (threshold : ℚ) (rows : List (List (Option α)))
      (r : List (Option α)), completionScore r < threshold →
      r ∉ filterByCompletion threshold rows) := by
  constructor
  · intro α f g hlen hcount
    unfold completionScore
    rw [hlen]
    rcases Nat.eq_zero_or_pos g.length with h0 | hpos
    · simp [h0]
    · have hq : (0 : ℚ) < (g.length : ℚ) := by exact_mod_cast hpos
      exact (div_le_div_iff_of_pos_right hq).mpr (by exact_mod_cast hcount.le)
  · intro α threshold rows r hlt hmem
    rw [filterByCompletion, List.mem_filter] at hmem
    exact absurd (of_decide_eq_true hmem.2) (not_le.mpr hlt)

/-- Witness for C3: a fully answered two-field response scores at least a
half-answered one, and the half-answered response is dropped by a 0.75
threshold. -/
theorem completionScore_monotone_filter_excludes_witness :
    completionScore ([some 1, none] : List (Option Int)) ≤
      completionScore ([some 1, some 2] : List (Option Int)) ∧
    ([some 1, none] : List (Option Int)) ∉
      filterByCompletion (3 / 4) [[some 1, none], [some 1, some 2]] :=
  ⟨completionScore_monotone_filter_excludes.1 Int _ _ rfl (by decide),
   completionScore_monotone_filter_excludes.2 Int (3 / 4) _ _ (by
     simp [completionScore, List.countP_cons]
     norm_num)⟩

/-- C4: Aggregate means are never fabricated — the mean is computed only over
the non-null values (null entries never change it), and when every value is
null the result is the distinguished unavailable representation: `none`,
rendered `N/A` by `formatScore`, and never the number 0. -/
theorem meanNonNull_not_fabricated :
    (∀ values : List (Option ℚ),
      meanNonNull values = meanNonNull (values.filter Option.isSome)) ∧
    (∀ values : List (Option ℚ), (∀ v ∈ values, v = none) →
      meanNonNull values = none ∧ meanNonNull values ≠ some 0 ∧
      formatScore (meanNonNull values) = "N/A") := by
  constructor
  · intro values
    unfold meanNonNull
    have h : (values.filter Option.isSome).filterMap id = values.filterMap id := by
      induction values with
      | nil => rfl
      | cons v vs ih => cases v <;> simp [List.filter_cons, ih]
    rw [h]
  · intro values hall
    have h : values.filterMap id = [] := by
      rw [List.filterMap_eq_nil_iff]
      intro v hv
      rw [hall v hv]
      rfl
    refine ⟨?_, ?_, ?_⟩ <;> simp [meanNonNull, h, formatScore]

/-- Witness for C4: the all-null two-entry column has an unavailable mean,
rendered `N/A`. -/
theorem meanNonNull_not_fabricated_witness :
    meanNonNull [none, none] = none ∧ meanNonNull [none, none] ≠ some 0 ∧
    formatScore (meanNonNull [none, none]) = "N/A" :=
  meanNonNull_not_fabricated.2 [none, none] (by decide)

/-- C5: The composite pilot score is a deterministic pure function of the
three component scores: two pilot-candidate evaluations with equal
`need_score`, `capability_score` and `willingness_score` — whatever their
other fields — yield equal `composite_score`, with no hidden state. -/
theorem compositeScore_deterministic (c₁ c₂ : PilotCandidate)
    (hn : c₁.need_score = c₂.need_score)
    (hc : c₁.capability_score = c₂.capability_score)
    (hw : c₁.willingness_score = c₂.willingness_score) :
    evalComposite c₁ = evalComposite c₂ := by
  unfold evalComposite
  rw [hn, hc, hw]

/-- Witness for C5: the two concrete runs with equal component scores get the
same composite score. -/
theorem compositeScore_deterministic_witness :
    evalComposite candRunOne = evalComposite candRunTwo :=
  compositeScore_deterministic candRunOne candRunTwo rfl rfl rfl

/-- C6: Multi-select consolidation is an order-preserving round trip: for a
synthetic row whose selected columns carry their option label, the
consolidated value is exactly the ordered list of selected option labels, in
original column order; and a row with every cell empty consolidates to the
empty list. -/
theorem consolidateMultiSelect_roundtrip :
    (∀ (options : List String) (selected : List Bool),
      (∀ o ∈ options, o ≠ "") →
      consolidateMultiSelect options (syntheticCells options selected)
        = (((options.zip selected).filter Prod.snd).map Prod.fst)) ∧
    (∀ (options cells : List String), (∀ cell ∈ cells, cell = "") →
      consolidateMultiSelect options cells = []) := by
  constructor
  · intro options
    induction options with
    | nil =>
      intro selected _
      simp [consolidateMultiSelect, syntheticCells]
    | cons o os ih =>
      intro selected hne
      have ho : o ≠ "" := hne o (List.mem_cons_self o os)
      have hos : ∀ x ∈ os, x ≠ "" := fun x hx => hne x (List.mem_cons_of_mem o hx)
      cases selected with
      | nil => simp [consolidateMultiSelect, syntheticCells]
      | cons b bs =>
        have hcell : syntheticCells (o :: os) (b :: bs)
            = (if b then o else "") :: syntheticCells os bs := rfl
        rw [hcell]
        cases b
        · simp [consolidateMultiSelect_cons, List.filter_cons, ih bs hos]
        · simp [consolidateMultiSelect_cons, ho, List.filter_cons, ih bs hos]
  · intro options
    induction options with
    | nil =>
      intro cells _
      simp [consolidateMultiSelect]
    | cons o os ih =>
      intro cells hempty
      cases cells with
      | nil => simp [consolidateMultiSelect]
      | cons cell cs =>
        have hc : cell = "" := hempty cell (List.mem_cons_self cell cs)
        have hcs : ∀ x ∈ cs, x = "" :=
          fun x hx => hempty x (List.mem_cons_of_mem cell hx)
        rw [consolidateMultiSelect_cons, if_pos hc]
        exact ih cs hcs

/-- Witness for C6: options `[X, Y, Z]` with `X` and `Z` selected consolidate
to exactly `["X", "Z"]`, and the unselected row consolidates to `[]`. -/
theorem consolidateMultiSelect_roundtrip_witness :
    consolidateMultiSelect ["X", "Y", "Z"]
      (syntheticCells ["X", "Y", "Z"] [true, false, true]) = ["X", "Z"] ∧
    consolidateMultiSelect ["X", "Y", "Z"] ["", "", ""] = [] := by
  constructor
  · have h := consolidateMultiSelect_roundtrip.1 ["X", "Y", "Z"]
      [true, false, true] (by decide)
    simpa using h
  · exact consolidateMultiSelect_roundtrip.2 ["X", "Y", "Z"] ["", "", ""]
      (by decide)

/-- C7: The pilot-candidate list produced for presentation is sorted by
`composite_score` descending, with ties broken by `need_score` descending:
in the sorted list, every earlier candidate has a composite score at least
that of every later one, and among equal composite scores at least the later
one's need score; the sorted list is a permutation of the input. -/
theorem sortCandidates_sorted (l : List PilotCandidate) :
    (sortCandidates l).Pairwise (fun a b =>
      b.composite_score ≤ a.composite_score ∧
      (a.composite_score = b.composite_score → b.need_score ≤ a.need_score)) ∧
    (sortCandidates l).Perm l := by
  constructor
  · have hs : List.Sorted candBefore (sortCandidates l) :=
      List.sorted_insertionSort candBefore l
    refine List.Pairwise.imp ?_ hs
    intro a b hab
    rcases hab with h | ⟨he, hn⟩
    · exact ⟨h.le, fun he => absurd he h.ne'⟩
    · exact ⟨he.le, fun _ => hn⟩
  · exact List.perm_insertionSort candBefore l

/-- Witness for C7: the two concrete candidate records sort into a list whose
single adjacent pair satisfies the descending ordering property. -/
theorem sortCandidates_sorted_witness :
    (sortCandidates [candRunOne, candRunTwo]).Pairwise (fun a b =>
      b.composite_score ≤ a.composite_score ∧
      (a.composite_score = b.composite_score → b.need_score ≤ a.need_score)) :=
  (sortCandidates_sorted [candRunOne, candRunTwo]).1

/-- C8, as amended: the pipeline is fail-fast and atomic at analysis-stage
granularity.  Under `set -e`, a failing analysis stage stops execution at
that stage — no later stage or copy command runs and no downstream file is
produced in `webapp/src/data/` — and a run in which every command succeeds
produces exactly the seven output files.  (The original claim's stronger
conclusion, that every run leaves either zero or all downstream files, fails
when a copy command itself fails midway; see the counterexample.) -/
theorem rebuild_failfast_atomic (ok : Cmd → Bool) :
    (ok stage1 = false → runSetE ok rebuildScript = [stage1]) ∧
    (ok stage1 = true → ok stage2 = false →
      runSetE ok rebuildScript = [stage1, stage2]) ∧
    (ok stage1 = true → ok stage2 = true → ok stage3 = false →
      runSetE ok rebuildScript = [stage1, stage2, stage3]) ∧
    ((ok stage1 && ok stage2 && ok stage3) = false → producedFiles ok = []) ∧
    ((∀ c, ok c = true) → producedFiles ok = webappDataFiles) := by
  refine ⟨?_, ?_, ?_, ?_, ?_⟩
  · intro h1
    simp only [stage1] at h1
    simp [rebuildScript, webappDataFiles, runSetE, stage1, stage2, stage3, h1]
  · intro h1 h2
    simp only [stage1] at h1
    simp only [stage2] at h2
    simp [rebuildScript, webappDataFiles, runSetE, stage1, stage2, stage3, h1, h2]
  · intro h1 h2 h3
    simp only [stage1] at h1
    simp only [stage2] at h2
    simp only [stage3] at h3
    simp [rebuildScript, webappDataFiles, runSetE, stage1, stage2, stage3, h1, h2, h3]
  · intro h
    cases h1 : ok stage1 with
    | false =>
      simp only [stage1] at h1
      simp [producedFiles, rebuildScript, webappDataFiles, runSetE, stage1, stage2,
        stage3, h1]
    | true =>
      cases h2 : ok stage2 with
      | false =>
        simp only [stage1] at h1
        simp only [stage2] at h2
        simp [producedFiles, rebuildScript, webappDataFiles, runSetE, stage1, stage2,
          stage3, h1, h2]
      | true =>
        cases h3 : ok stage3 with
        | false =>
          simp only [stage1] at h1
          simp only [stage2] at h2
          simp only [stage3] at h3
          simp [producedFiles, rebuildScript, webappDataFiles, runSetE, stage1, stage2,
            stage3, h1, h2, h3]
        | true =>
          rw [h1, h2, h3] at h
          simp at h
  · intro hall
    simp [producedFiles, rebuildScript, webappDataFiles, runSetE, stage1, stage2,
      stage3, hall]

/-- Witness for C8: a run whose second analysis stage fails produces no
downstream file at all. -/
theorem rebuild_failfast_atomic_witness :
    producedFiles (fun c => !(c == stage2)) = [] :=
  (rebuild_failfast_atomic (fun c => !(c == stage2))).2.2.2.1 (by decide)

/-- Counterexample to C8 as originally stated ("a run either fully succeeds
or leaves zero partial downstream output files"): a run whose three analysis
stages succeed but whose fourth copy command fails — `set -e` aborts
mid-copy — leaves exactly the first three of the seven files in
`webapp/src/data/`, a non-empty strict subset. -/
theorem rebuild_partial_copy_counterexample :
    producedFiles (fun c => !(c == Cmd.copyFile "regional_comparison.json"))
      = ["survey_clean.json", "summary_stats.json", "completion_analysis.json"] ∧
    producedFiles (fun c => !(c == Cmd.copyFile "regional_comparison.json"))
      ≠ [] ∧
    producedFiles (fun c => !(c == Cmd.copyFile "regional_comparison.json"))
      ≠ webappDataFiles := by
  refine ⟨by decide, by decide, by decide⟩

/-- The webapp's descending count sort permutes its input. -/
theorem sortByCountDesc_perm (entries : List (String × Int)) :
    (sortByCountDesc entries).Perm entries :=
  List.perm_insertionSort countGE entries

/-- The descending count sort of a list is empty exactly when the list is. -/
theorem sortByCountDesc_eq_nil_iff (entries : List (String × Int)) :
    sortByCountDesc entries = [] ↔ entries = [] := by
  constructor <;> intro h
  · have hlen := (sortByCountDesc_perm entries).length_eq
    rw [h] at hlen
    exact List.length_eq_zero.mp hlen.symm
  · rw [h]
    rfl

/-- The head of the descending count sort is an entry of the original list
with a maximal count. -/
theorem sortByCountDesc_head_max (entries : List (String × Int))
    (x : String × Int) (hx : (sortByCountDesc entries).head? = some x) :
    x ∈ entries ∧ ∀ e ∈ entries, e.2 ≤ x.2 := by
  have hperm := sortByCountDesc_perm entries
  have hs : List.Sorted countGE (sortByCountDesc entries) :=
    List.sorted_insertionSort countGE entries
  cases hsort : sortByCountDesc entries with
  | nil =>
    rw [hsort] at hx
    exact absurd hx (by simp)
  | cons y ys =>
    rw [hsort] at hx hperm hs
    have hxy : y = x := by simpa using hx
    subst hxy
    constructor
    · exact hperm.subset (List.mem_cons_self y ys)
    · intro e he
      have he' : e ∈ y :: ys := hperm.mem_iff.mpr he
      rcases List.mem_cons.mp he' with rfl | hmem
      · exact le_rfl
      · exact List.rel_of_sorted_cons hs e hmem

/-- A filter that keeps nothing makes `getTopItem` return `null`. -/
theorem getTopItem_eq_none (counts : List (String × Int))
    (excludeKeys : List String)
    (h : counts.filter (fun e => !(excludeKeys.contains e.1)) = []) :
    getTopItem counts excludeKeys = none := by
  unfold getTopItem
  simp only [h, List.isEmpty_nil, if_true]

/-- C9: `getTopItem` returns `null` exactly when no non-excluded entry
exists, and otherwise returns a non-excluded entry whose count is at least
the count of every non-excluded entry; `getTopDistribution` coincides with
`getTopItem` under an empty exclusion list. -/
theorem getTopItem_correct (counts : List (String × Int))
    (excludeKeys : List String) :
    (getTopItem counts excludeKeys = none ↔
      counts.filter (fun e => !(excludeKeys.contains e.1)) = []) ∧
    (∀ k c, getTopItem counts excludeKeys = some (k, c) →
      (k, c) ∈ counts.filter (fun e => !(excludeKeys.contains e.1)) ∧
      ∀ e ∈ counts.filter (fun e => !(excludeKeys.contains e.1)), e.2 ≤ c) ∧
    getTopDistribution counts = getTopItem counts [] := by
  refine ⟨⟨?_, getTopItem_eq_none counts excludeKeys⟩, ?_, ?_⟩
  · intro h
    by_contra hne
    have hemp : (counts.filter (fun e => !(excludeKeys.contains e.1))).isEmpty
        = false := by
      simpa [List.isEmpty_iff] using hne
    unfold getTopItem at h
    simp only [hemp, Bool.false_eq_true, if_false, List.head?_eq_none_iff,
      sortByCountDesc_eq_nil_iff] at h
    exact hne h
  · intro k c h
    unfold getTopItem at h
    by_cases hemp : (counts.filter (fun e => !(excludeKeys.contains e.1))).isEmpty
    · rw [if_pos hemp] at h
      cases h
    · rw [if_neg hemp] at h
      exact sortByCountDesc_head_max _ _ h
  · unfold getTopDistribution getTopItem
    simp

/-- Witness for C9: on a concrete counts map with an exclusion, the top item
is a maximal non-excluded entry. -/
theorem getTopItem_correct_witness :
    ("staff", (4 : Int)) ∈
      (([("budget", 7), ("staff", 4), ("training", 2)] :
          List (String × Int)).filter
        (fun e => !((["budget"] : List String).contains e.1))) ∧
    ∀ e ∈ (([("budget", 7), ("staff", 4), ("training", 2)] :
          List (String × Int)).filter
        (fun e => !((["budget"] : List String).contains e.1))), e.2 ≤ 4 :=
  (getTopItem_correct [("budget", 7), ("staff", 4), ("training", 2)]
    ["budget"]).2.1 "staff" 4 (by decide)

/-- An empty distribution makes `getTopDistribution` return `null`. -/
theorem getTopDistribution_eq_none (distribution : List (String × Int))
    (h : distribution = []) : getTopDistribution distribution = none := by
  rw [h]
  rfl

/-- C10: `getKeyFindings` is total over its inputs — it is a function on
whole summary-stats and qualitative-synthesis values — and wherever no top
entry exists (an empty distribution, an option-count map whose entries are
all excluded, or an empty priority-theme map) it substitutes the string
`N/A` (the empty string for the priority theme) and the count 0. -/
theorem getKeyFindings_total_defaults (stats : SummaryStats)
    (qualitative : QualitativeSynthesis) :
    (stats.credential_verification.verification_hours.distribution = [] →
      (getKeyFindings stats qualitative).credentialVerification.avgVerificationTime
          = "N/A" ∧
      (getKeyFindings stats qualitative).credentialVerification.avgVerificationTimeCount
          = 0) ∧
    (stats.credential_verification.challenges.option_counts.filter
        (fun e => !((["Less than 25%", "Other", "No significant challenges"] :
          List String).contains e.1)) = [] →
      (getKeyFindings stats qualitative).credentialVerification.topChallenge
          = "N/A" ∧
      (getKeyFindings stats qualitative).credentialVerification.topChallengeCount
          = 0) ∧
    (stats.workforce_retention.return_rate.distribution = [] →
      (getKeyFindings stats qualitative).workforceRetention.returnRate = "N/A" ∧
      (getKeyFindings stats qualitative).workforceRetention.returnRateCount = 0) ∧
    (stats.temporary_workforce.challenges.option_counts.filter
        (fun e => !((["Never", "Rarely (1-5 times per election)", "Other"] :
          List String).contains e.1)) = [] →
      (getKeyFindings stats qualitative).workforceRetention.topChallenge
          = "N/A" ∧
      (getKeyFindings stats qualitative).workforceRetention.topChallengeCount
          = 0) ∧
    (stats.workforce_retention.technologies_explored.option_counts.filter
        (fun e => !((["Other"] : List String).contains e.1)) = [] →
      (getKeyFindings stats qualitative).technologyAdoption.mostExplored
          = "N/A" ∧
      (getKeyFindings stats qualitative).technologyAdoption.mostExploredCount
          = 0) ∧
    (stats.technology_infrastructure.limitations.option_counts.filter
        (fun e => !((["Open-Ended Response", "0-25%", "Other"] :
          List String).contains e.1)) = [] →
      (getKeyFindings stats qualitative).technologyAdoption.topBarrier
          = "N/A" ∧
      (getKeyFindings stats qualitative).technologyAdoption.topBarrierCount
          = 0) ∧
    (qualitative.priority_themes = [] →
      (getKeyFindings stats qualitative).topPriority.theme = "" ∧
      (getKeyFindings stats qualitative).topPriority.themeFormatted = "" ∧
      (getKeyFindings stats qualitative).topPriority.count = 0) := by
  refine ⟨?_, ?_, ?_, ?_, ?_, ?_, ?_⟩
  · intro h
    simp [getKeyFindings, getTopDistribution_eq_none _ h, jsOrString, jsCountOrZero]
  · intro h
    constructor <;>
      simp [getKeyFindings, getTopItem_eq_none _ _ h, jsOrString, jsCountOrZero,
        shortenChallenge, shortNames]
    all_goals decide
  · intro h
    simp [getKeyFindings, getTopDistribution_eq_none _ h, jsOrString, jsCountOrZero]
  · intro h
    constructor <;>
      simp [getKeyFindings, getTopItem_eq_none _ _ h, jsOrString, jsCountOrZero,
        shortenChallenge, shortNames]
    all_goals decide
  · intro h
    constructor <;>
      simp [getKeyFindings, getTopItem_eq_none _ _ h, jsOrString, jsCountOrZero,
        shortenChallenge, shortNames]
    all_goals decide
  · intro h
    constructor <;>
      simp [getKeyFindings, getTopItem_eq_none _ _ h, jsOrString, jsCountOrZero,
        shortenChallenge, shortNames]
    all_goals decide
  · intro h
    refine ⟨?_, ?_, ?_⟩ <;>
      simp [getKeyFindings, h, sortByCountDesc, List.insertionSort, jsOrString,
        jsCountOrZero, formatThemeName, themeNames, upperFirstOfWords,
        upperFirstOfWordsAux]
    all_goals decide

/-- Witness for C10: on the all-empty summary statistics and qualitative
synthesis, `getKeyFindings` yields the substituted defaults. -/
theorem getKeyFindings_total_defaults_witness :
    (getKeyFindings emptyStats emptyQualitative).credentialVerification.avgVerificationTime
        = "N/A" ∧
    (getKeyFindings emptyStats emptyQualitative).topPriority.theme = "" ∧
    (getKeyFindings emptyStats emptyQualitative).topPriority.count = 0 :=
  ⟨((getKeyFindings_total_defaults emptyStats emptyQualitative).1 rfl).1,
   ((getKeyFindings_total_defaults emptyStats
      emptyQualitative).2.2.2.2.2.2 rfl).1,
   ((getKeyFindings_total_defaults emptyStats
      emptyQualitative).2.2.2.2.2.2 rfl).2.2⟩

end SurveyAnalysis
